import Mathlib

/-!
Shallow embedding of django-oscar-accounts, file accounts/abstract_models.py.

Monetary values are Decimals with two decimal places in the source; all the
source does with them is add, negate, sum and compare, so they are embedded as
integers (think: an exact count of cents).  Dates are embedded as integers with
the usual order.  The database is embedded as an explicit state value: the
Account and User tables are keyed by primary key, the Transfer and Transaction
tables are kept as row lists (the ledger is aggregated and counted over rows).
Every Django operation becomes a pure function that takes and returns the
database state; an operation that raises returns `Except.error`, and an error
result means no write took place (the caller keeps the unchanged state).
-/

namespace OscarAccounts

/-- Account.OPEN status string (abstract_models.py line 54). -/
def OPEN : String := "Open"

/-- Account.CLOSED status string (abstract_models.py line 54). -/
def CLOSED : String := "Closed"

/-- A row of the auth.User table; only the fields the source reads. -/
structure User where
  id : Nat
  username : String
deriving Repr, DecidableEq

/-- A row of the Account table (abstract_models.py lines 32-135).
Field defaults mirror the model field declarations: status defaults to OPEN,
credit_limit and balance default to 0.00, the other fields to null. -/
structure Account where
  id : Nat
  name : Option String := none
  code : Option String := none
  status : String := OPEN
  credit_limit : Option Int := some 0
  balance : Int := 0
  start_date : Option Int := none
  end_date : Option Int := none
deriving Repr, DecidableEq

/-- A row of the Transfer table (abstract_models.py lines 189-243).
`username` is the denormalised audit snapshot column (line 211), empty by
default; `user_id` is the nullable foreign key to auth.User. -/
structure Transfer where
  id : Nat
  source_id : Nat
  destination_id : Nat
  amount : Int
  description : Option String := none
  user_id : Option Nat := none
  username : String := ""
deriving Repr, DecidableEq

/-- A row of the Transaction (ledger entry) table (abstract_models.py
lines 246-269). -/
structure Transaction where
  transfer_id : Nat
  account_id : Nat
  amount : Int
deriving Repr, DecidableEq

/-- The exceptions the source raises.  Modelled from the spec: the four
business-exception classes live in accounts/exceptions.py, which is not among
the provided source files; their names and payloads follow the raise sites in
abstract_models.py and the spec's error taxonomy.  InsufficientFunds carries
the requested amount and the source account id (the source formats both into
the message, line 184-186).  RuntimeError is the Python builtin raised by the
delete methods (lines 231 and 269), a distinct constructor from every
business exception.  IntegrityError is the database error raised when an
insert violates the unique_together ('transfer', 'account') constraint
declared on Transaction.Meta (line 265). -/
inductive Exc where
  | InvalidAmount (msg : String)
  | ClosedAccount (msg : String)
  | InsufficientFunds (amount : Int) (accountId : Nat)
  | AccountNotEmpty
  | RuntimeError (msg : String)
  | IntegrityError
deriving Repr, DecidableEq

/-- The database state. -/
structure DB where
  accounts : Nat → Option Account := fun _ => none
  users : Nat → Option User := fun _ => none
  transfers : List Transfer := []
  transactions : List Transaction := []
  next_transfer_id : Nat := 1

/-- Foreign-key dereference of auth.User. -/
def DB.getUser (db : DB) (uid : Nat) : Option User :=
  db.users uid

/-- Write an account row (Django Model.save: INSERT or UPDATE by primary
key). -/
def DB.putAccount (db : DB) (a : Account) : DB :=
  { db with accounts := fun x => if x = a.id then some a else db.accounts x }

/-- Append a transfer row. -/
def DB.addTransfer (db : DB) (t : Transfer) : DB :=
  { db with transfers := db.transfers ++ [t] }

/-- Insert a Transaction row, enforcing the unique_together
('transfer', 'account') constraint of Transaction.Meta (line 265): the insert
fails (IntegrityError at the database) when a row for the same
(transfer, account) pair already exists. -/
def DB.insertTransaction (db : DB) (t : Transaction) : Option DB :=
  if db.transactions.any
      (fun x => x.transfer_id == t.transfer_id && x.account_id == t.account_id)
  then none
  else some { db with transactions := db.transactions ++ [t] }

/-- Sum of the amounts of the ledger rows of one account, as the Sum('amount')
aggregate returns it: None when the account has no rows (line 110-111). -/
def DB.sumAmounts (db : DB) (aid : Nat) : Option Int :=
  match db.transactions.filter (fun t => t.account_id == aid) with
  | [] => none
  | l => some ((l.map (fun t => t.amount)).sum)

/-- Plain ledger sum of one account (0 when it has no rows); the value
`_balance` is specified to produce. -/
def DB.ledgerSum (db : DB) (aid : Nat) : Int :=
  ((db.transactions.filter (fun t => t.account_id == aid)).map
    (fun t => t.amount)).sum

/-- Account.is_active (lines 92-100): the four branches of the source, in
source order; `today` is datetime.date.today(), an explicit parameter here. -/
def Account.is_active (a : Account) (today : Int) : Bool :=
  match a.start_date, a.end_date with
  | none, none => true
  | some s, none => decide (today ≥ s)
  | none, some e => decide (today < e)
  | some s, some e => decide (s ≤ today) && decide (today < e)

/-- The balance recomputation Account._balance (lines 109-112): the Sum
aggregate, with None mapped to D('0.00'). -/
def Account.balanceAggregate (a : Account) (db : DB) : Int :=
  match db.sumAmounts a.id with
  | none => 0
  | some s => s

/-- Account.save (lines 102-107): uppercase a truthy code, recompute the
cached balance from the ledger, then write the row.  Returns the saved
in-memory instance together with the new database state. -/
def Account.save (a : Account) (db : DB) : Account × DB :=
  let a1 :=
    match a.code with
    | some c => if c = "" then a else { a with code := some c.toUpper }
    | none => a
  let a2 := { a1 with balance := a1.balanceAggregate db }
  (a2, db.putAccount a2)

/-- Account.num_transactions (lines 114-115). -/
def Account.num_transactions (a : Account) (db : DB) : Nat :=
  (db.transactions.filter (fun t => t.account_id == a.id)).length

/-- Account.has_credit_limit (lines 117-119). -/
def Account.has_credit_limit (a : Account) : Bool :=
  a.credit_limit.isSome

/-- Account.is_debit_permitted (lines 121-125): a null credit limit permits
everything, otherwise the amount must not exceed balance + credit_limit. -/
def Account.is_debit_permitted (a : Account) (amount : Int) : Bool :=
  match a.credit_limit with
  | none => true
  | some cl => decide (amount ≤ a.balance + cl)

/-- Account.is_open (lines 127-128). -/
def Account.is_open (a : Account) : Bool :=
  a.status == OPEN

/-- Account.close (lines 130-135): AccountNotEmpty when the cached balance is
positive, otherwise set status to CLOSED and save.  An error result means the
account was not written (the raise happens before any mutation). -/
def Account.close (a : Account) (db : DB) : Except Exc (Account × DB) :=
  if a.balance > 0 then .error .AccountNotEmpty
  else .ok (Account.save { a with status := CLOSED } db)

/-- Transfer.save (lines 233-237): when the user foreign key is set, snapshot
that user's current username into the audit column, then write the row. -/
def Transfer.save (t : Transfer) (db : DB) : Transfer × DB :=
  match t.user_id.bind db.getUser with
  | some u =>
    let t2 := { t with username := u.username }
    (t2, db.addTransfer t2)
  | none => (t, db.addTransfer t)

/-- Transfer.authorisor_username (lines 239-243): the current username of the
referenced user when the foreign key still resolves, the stored snapshot
otherwise. -/
def Transfer.authorisor_username (t : Transfer) (db : DB) : String :=
  match t.user_id.bind db.getUser with
  | some u => u.username
  | none => t.username

/-- Transfer.delete (lines 230-231): always raises RuntimeError. -/
def Transfer.delete (_t : Transfer) (_db : DB) : Except Exc DB :=
  .error (.RuntimeError "Transfers cannot be deleted")

/-- Transaction.delete (lines 268-269): always raises RuntimeError. -/
def Transaction.delete (_t : Transaction) (_db : DB) : Except Exc DB :=
  .error (.RuntimeError "Transactions cannot be deleted")

/-- PostingManager.verify_transfer (lines 171-186): the four business checks
in source order; pure, raises by returning an error. -/
def PostingManager.verify_transfer (source destination : Account)
    (amount : Int) : Except Exc Unit :=
  if amount ≤ 0 then
    .error (.InvalidAmount "Debits must use a positive amount")
  else if !source.is_open then
    .error (.ClosedAccount "Source account has been closed")
  else if !destination.is_open then
    .error (.ClosedAccount "Destination account has been closed")
  else if !source.is_debit_permitted amount then
    .error (.InsufficientFunds amount source.id)
  else
    .ok ()

/-- The atomic body of PostingManager.create (lines 149-164): create the
Transfer (whose save snapshots the authorising username), the two ledger rows,
then re-save both accounts.  A failed insert (unique_together violation)
surfaces as IntegrityError and, commit_on_success rolling everything back, the
caller's database state is unchanged: no partial result is ever returned. -/
def PostingManager.post (db : DB) (source destination : Account)
    (amount : Int) (user : Option User) (description : Option String) :
    Except Exc (Transfer × DB) :=
  let tid := db.next_transfer_id
  let t0 : Transfer :=
    { id := tid, source_id := source.id, destination_id := destination.id,
      amount := amount, description := description,
      user_id := user.map (fun u => u.id), username := "" }
  let p := Transfer.save t0 { db with next_transfer_id := tid + 1 }
  match p.2.insertTransaction
      { transfer_id := p.1.id, account_id := source.id, amount := -amount } with
  | none => .error .IntegrityError
  | some db2 =>
    match db2.insertTransaction
        { transfer_id := p.1.id, account_id := destination.id,
          amount := amount } with
    | none => .error .IntegrityError
    | some db3 =>
      let q1 := Account.save source db3
      let q2 := Account.save destination q1.2
      .ok (p.1, q2.2)

/-- PostingManager.create (lines 145-164): verify first (before any write),
then run the atomic posting body. -/
def PostingManager.create (db : DB) (source destination : Account)
    (amount : Int) (user : Option User) (description : Option String) :
    Except Exc (Transfer × DB) :=
  match PostingManager.verify_transfer source destination amount with
  | .error e => .error e
  | .ok _ => PostingManager.post db source destination amount user description

/-- Row freshness of the transfer-id sequence: every existing transfer row and
every existing ledger row sits below the next sequence value.  Holds of every
database actually built by the manager (ids are allocated in order) and of the
empty database. -/
def DB.fresh (db : DB) : Bool :=
  db.transfers.all (fun tr => decide (tr.id < db.next_transfer_id)) &&
  db.transactions.all (fun tx => decide (tx.transfer_id < db.next_transfer_id))

end OscarAccounts

/-! Helper lemmas about the embedded operations. -/

namespace OscarAccounts

lemma balanceAggregate_eq_ledgerSum (a : Account) (db : DB) :
    a.balanceAggregate db = db.ledgerSum a.id := by
  unfold Account.balanceAggregate DB.sumAmounts DB.ledgerSum
  cases h : db.transactions.filter (fun t => t.account_id == a.id) <;> simp [h]

lemma save_id (a : Account) (db : DB) : (a.save db).1.id = a.id := by
  unfold Account.save
  cases a.code
  · rfl
  · dsimp only
    split <;> rfl

lemma save_status (a : Account) (db : DB) : (a.save db).1.status = a.status := by
  unfold Account.save
  cases a.code
  · rfl
  · dsimp only
    split <;> rfl

lemma save_balance (a : Account) (db : DB) :
    (a.save db).1.balance = db.ledgerSum a.id := by
  unfold Account.save
  cases hc : a.code
  · dsimp only
    rw [balanceAggregate_eq_ledgerSum]
  · dsimp only
    split
    · rw [balanceAggregate_eq_ledgerSum]
    · rw [balanceAggregate_eq_ledgerSum]

lemma save_snd (a : Account) (db : DB) :
    (a.save db).2 = db.putAccount (a.save db).1 := rfl

lemma save_transactions (a : Account) (db : DB) :
    (a.save db).2.transactions = db.transactions := rfl

lemma save_transfers (a : Account) (db : DB) :
    (a.save db).2.transfers = db.transfers := rfl

lemma save_accounts_self (a : Account) (db : DB) :
    (a.save db).2.accounts a.id = some (a.save db).1 := by
  rw [save_snd]
  show (if a.id = (a.save db).1.id then some (a.save db).1
        else db.accounts a.id) = some (a.save db).1
  rw [if_pos (save_id a db).symm]

lemma save_accounts_other (a : Account) (db : DB) (x : Nat) (hx : x ≠ a.id) :
    (a.save db).2.accounts x = db.accounts x := by
  rw [save_snd]
  show (if x = (a.save db).1.id then some (a.save db).1
        else db.accounts x) = db.accounts x
  rw [save_id, if_neg hx]

lemma ledgerSum_congr (db db2 : DB) (aid : Nat)
    (h : db.transactions = db2.transactions) :
    db.ledgerSum aid = db2.ledgerSum aid := by
  unfold DB.ledgerSum
  rw [h]

lemma fresh_no_tx (db : DB) (aid : Nat) (h : db.fresh = true) :
    db.transactions.any
      (fun x => x.transfer_id == db.next_transfer_id && x.account_id == aid) =
      false := by
  unfold DB.fresh at h
  rw [Bool.and_eq_true, List.all_eq_true, List.all_eq_true] at h
  rw [List.any_eq_false]
  intro x hx
  have hlt := h.2 x hx
  simp at hlt ⊢
  omega

lemma transfer_save_fields (t : Transfer) (db : DB) :
    (Transfer.save t db).1.id = t.id ∧
    (Transfer.save t db).1.source_id = t.source_id ∧
    (Transfer.save t db).1.destination_id = t.destination_id ∧
    (Transfer.save t db).1.amount = t.amount ∧
    (Transfer.save t db).1.user_id = t.user_id ∧
    (Transfer.save t db).1.description = t.description := by
  unfold Transfer.save
  cases t.user_id.bind db.getUser
  · exact ⟨rfl, rfl, rfl, rfl, rfl, rfl⟩
  · exact ⟨rfl, rfl, rfl, rfl, rfl, rfl⟩

lemma transfer_save_snd (t : Transfer) (db : DB) :
    (Transfer.save t db).2 = db.addTransfer (Transfer.save t db).1 := by
  unfold Transfer.save
  cases t.user_id.bind db.getUser
  · rfl
  · rfl

lemma verify_ok (source destination : Account) (amount : Int)
    (hamt : 0 < amount) (hsrc : source.is_open = true)
    (hdst : destination.is_open = true)
    (hdeb : source.is_debit_permitted amount = true) :
    PostingManager.verify_transfer source destination amount = .ok () := by
  unfold PostingManager.verify_transfer
  rw [if_neg (by omega), if_neg (by simp [hsrc]), if_neg (by simp [hdst]),
      if_neg (by simp [hdeb])]

/-- The success path of the atomic posting body: with a fresh transfer id and
distinct accounts, both ledger inserts succeed and the final state holds the
new transfer row, the two new ledger rows, and both re-saved accounts. -/
lemma post_success (db : DB) (source destination : Account) (amount : Int)
    (user : Option User) (description : Option String)
    (hfresh : db.fresh = true) (hne : source.id ≠ destination.id) :
    ∃ t db5,
      PostingManager.post db source destination amount user description =
        .ok (t, db5) ∧
      t.id = db.next_transfer_id ∧
      t.source_id = source.id ∧
      t.destination_id = destination.id ∧
      t.amount = amount ∧
      t.user_id = user.map (fun u => u.id) ∧
      db5.transfers = db.transfers ++ [t] ∧
      db5.transactions = db.transactions ++
        [{ transfer_id := t.id, account_id := source.id, amount := -amount },
         { transfer_id := t.id, account_id := destination.id,
           amount := amount }] ∧
      (∃ sa, db5.accounts source.id = some sa ∧
        sa.balance = db5.ledgerSum source.id) ∧
      (∃ da, db5.accounts destination.id = some da ∧
        da.balance = db5.ledgerSum destination.id) := by
  unfold PostingManager.post
  dsimp only
  set t0 : Transfer :=
    { id := db.next_transfer_id, source_id := source.id,
      destination_id := destination.id, amount := amount,
      description := description, user_id := user.map (fun u => u.id),
      username := "" } with ht0
  set db0 : DB := { db with next_transfer_id := db.next_transfer_id + 1 }
    with hdb0
  set p := Transfer.save t0 db0 with hp
  have hid : p.1.id = db.next_transfer_id := (transfer_save_fields t0 db0).1
  have htx : p.2.transactions = db.transactions := by
    rw [hp, transfer_save_snd]
    rfl
  have htr : p.2.transfers = db.transfers ++ [p.1] := by
    rw [hp, transfer_save_snd]
    rfl
  have hc1 : (p.2.transactions.any
      (fun x => x.transfer_id == p.1.id && x.account_id == source.id)) =
      false := by
    simp only [htx, hid]
    exact fresh_no_tx db source.id hfresh
  have hi1 : p.2.insertTransaction
      { transfer_id := p.1.id, account_id := source.id, amount := -amount } =
      some { p.2 with transactions := p.2.transactions ++
        [{ transfer_id := p.1.id, account_id := source.id,
           amount := -amount }] } := by
    unfold DB.insertTransaction
    simp only [hc1, Bool.false_eq_true, if_false]
  have hc2 : ((p.2.transactions ++
      ([{ transfer_id := p.1.id, account_id := source.id,
          amount := -amount }] : List Transaction)).any
      (fun x => x.transfer_id == p.1.id && x.account_id == destination.id)) =
      false := by
    rw [List.any_append]
    simp only [htx, hid]
    rw [fresh_no_tx db destination.id hfresh]
    simp [hne]
  have hi2 : (DB.insertTransaction
      { p.2 with transactions := p.2.transactions ++
        [{ transfer_id := p.1.id, account_id := source.id,
           amount := -amount }] }
      { transfer_id := p.1.id, account_id := destination.id,
        amount := amount }) =
      some { p.2 with transactions := (p.2.transactions ++
        [{ transfer_id := p.1.id, account_id := source.id,
           amount := -amount }]) ++
        [{ transfer_id := p.1.id, account_id := destination.id,
           amount := amount }] } := by
    unfold DB.insertTransaction
    simp only [hc2, Bool.false_eq_true, if_false]
  rw [hi1]
  dsimp only
  rw [hi2]
  dsimp only
  set db3 : DB := ({ accounts := p.2.accounts, users := p.2.users, transfers := p.2.transfers, transactions := p.2.transactions ++ [{ transfer_id := p.1.id, account_id := source.id, amount := -amount }] ++ [{ transfer_id := p.1.id, account_id := destination.id, amount := amount }], next_transfer_id := p.2.next_transfer_id } : DB) with hdb3
  have h3tr : db3.transfers = p.2.transfers := by rw [hdb3]
  have h3tx : db3.transactions = p.2.transactions ++
      [{ transfer_id := p.1.id, account_id := source.id, amount := -amount }] ++
      [{ transfer_id := p.1.id, account_id := destination.id,
         amount := amount }] := by rw [hdb3]
  refine ⟨p.1, _, rfl, hid, (transfer_save_fields t0 db0).2.1,
    (transfer_save_fields t0 db0).2.2.1, (transfer_save_fields t0 db0).2.2.2.1,
    (transfer_save_fields t0 db0).2.2.2.2.1, ?_, ?_, ?_, ?_⟩
  · rw [save_transfers, save_transfers, h3tr, htr]
  · rw [save_transactions, save_transactions, h3tx, htx, List.append_assoc]
    rfl
  · refine ⟨(Account.save source db3).1, ?_, ?_⟩
    · rw [save_accounts_other destination ((Account.save source db3).2)
        source.id hne]
      exact save_accounts_self source db3
    · rw [save_balance]
      exact ledgerSum_congr db3 _ source.id
        (by rw [save_transactions, save_transactions])
  · refine ⟨(Account.save destination (Account.save source db3).2).1, ?_, ?_⟩
    · exact save_accounts_self destination (Account.save source db3).2
    · rw [save_balance]
      refine ledgerSum_congr _ _ destination.id ?_
      rw [save_transactions, save_transactions, save_transactions]

end OscarAccounts

/-! The claims. -/

namespace OscarAccounts

/-- C1 (amended): for every open source account, open destination account, and
positive amount for which the source's debit is permitted — and the source and
destination being distinct accounts, with a fresh transfer id —
PostingManager.create creates exactly one Transfer and exactly two Transaction
rows, one for the source with amount -amount and one for the destination with
amount +amount, the pair summing to 0, re-saves both accounts' balances (each
row's cached balance equals its ledger sum afterwards), and returns the
created Transfer. -/
theorem create_posts_balanced_pair (db : DB) (source destination : Account)
    (amount : Int)
    (hsrc : source.is_open = true) (hdst : destination.is_open = true)
    (hamt : 0 < amount) (hdeb : source.is_debit_permitted amount = true)
    (hne : source.id ≠ destination.id) (hfresh : db.fresh = true) :
    ∃ t db5,
      PostingManager.create db source destination amount none none =
        .ok (t, db5) ∧
      t.source_id = source.id ∧
      t.destination_id = destination.id ∧
      t.amount = amount ∧
      db5.transfers = db.transfers ++ [t] ∧
      db5.transactions = db.transactions ++
        [{ transfer_id := t.id, account_id := source.id, amount := -amount },
         { transfer_id := t.id, account_id := destination.id,
           amount := amount }] ∧
      (-amount) + amount = 0 ∧
      (∃ sa, db5.accounts source.id = some sa ∧
        sa.balance = db5.ledgerSum source.id) ∧
      (∃ da, db5.accounts destination.id = some da ∧
        da.balance = db5.ledgerSum destination.id) := by
  have hv := verify_ok source destination amount hamt hsrc hdst hdeb
  have hcreate : PostingManager.create db source destination amount none none =
      PostingManager.post db source destination amount none none := by
    unfold PostingManager.create
    rw [hv]
  obtain ⟨t, db5, hpost, _, hsid, hdid, hamt2, _, htr, htx, hsa, hda⟩ :=
    post_success db source destination amount none none hfresh hne
  refine ⟨t, db5, ?_, hsid, hdid, hamt2, htr, htx, by omega, hsa, hda⟩
  rw [hcreate]
  exact hpost

/-- C1 witness: a concrete successful posting. -/
theorem create_posts_balanced_pair_witness :
    ∃ t db5,
      PostingManager.create { } { id := 1, credit_limit := none } { id := 2 } 5
        none none = .ok (t, db5) ∧
      t.source_id = 1 ∧
      t.destination_id = 2 ∧
      t.amount = 5 ∧
      db5.transfers = [] ++ [t] ∧
      db5.transactions = [] ++
        [{ transfer_id := t.id, account_id := 1, amount := -5 },
         { transfer_id := t.id, account_id := 2, amount := 5 }] ∧
      (-5 : Int) + 5 = 0 ∧
      (∃ sa, db5.accounts 1 = some sa ∧ sa.balance = db5.ledgerSum 1) ∧
      (∃ da, db5.accounts 2 = some da ∧ da.balance = db5.ledgerSum 2) :=
  create_posts_balanced_pair { } { id := 1, credit_limit := none } { id := 2 }
    5 (by decide) (by decide) (by decide) (by decide) (by decide) (by decide)

/-- C1 counterexample: with source and destination the same open account whose
debit is permitted, the posting does not create and return a Transfer — the
second ledger insert violates unique_together and everything rolls back. -/
theorem create_same_account_rejected :
    Account.is_open { id := 1, credit_limit := none } = true ∧
    Account.is_debit_permitted { id := 1, credit_limit := none } 5 = true ∧
    (0 : Int) < 5 ∧
    PostingManager.create { } { id := 1, credit_limit := none }
      { id := 1, credit_limit := none } 5 none none =
      .error .IntegrityError := by
  refine ⟨by decide, by decide, by decide, ?_⟩
  rfl

/-- C2: after every save, the cached balance of the stored account row equals
the sum of the amounts of the Transaction rows referencing that account (0
when there are none); the balance is recomputed from the ledger on every
persist, so re-saving without an intervening posting yields the same value. -/
theorem account_save_recomputes_balance (a : Account) (db : DB) :
    (a.save db).2.accounts a.id = some (a.save db).1 ∧
    (a.save db).1.balance = (a.save db).2.ledgerSum a.id ∧
    (db.transactions.filter (fun tx => tx.account_id == a.id) = [] →
      (a.save db).1.balance = 0) ∧
    ((a.save db).1.save (a.save db).2).1.balance = (a.save db).1.balance := by
  have hsum : (a.save db).2.ledgerSum a.id = db.ledgerSum a.id := by
    unfold DB.ledgerSum
    rw [save_transactions]
  refine ⟨save_accounts_self a db, ?_, ?_, ?_⟩
  · rw [save_balance, hsum]
  · intro h
    rw [save_balance]
    unfold DB.ledgerSum
    rw [h]
    rfl
  · rw [save_balance, save_balance, save_id]
    unfold DB.ledgerSum
    rw [save_transactions]

/-- C2 witness: saving an account with no ledger rows stores balance 0. -/
theorem account_save_recomputes_balance_witness :
    (Account.save { id := 4 } { }).1.balance = 0 :=
  (account_save_recomputes_balance { id := 4 } { }).2.2.1 rfl

/-- C3: the four business checks run in the fixed source order — non-positive
amount, closed source, closed destination, debit not permitted — raising
InvalidAmount, ClosedAccount (naming the side), or InsufficientFunds (carrying
the requested amount and the source id); and whenever verification raises,
create propagates exactly that error and produces no new database state. -/
theorem verify_check_order (source destination : Account) (amount : Int) :
    (amount ≤ 0 →
      PostingManager.verify_transfer source destination amount =
        .error (.InvalidAmount "Debits must use a positive amount")) ∧
    (0 < amount → source.is_open = false →
      PostingManager.verify_transfer source destination amount =
        .error (.ClosedAccount "Source account has been closed")) ∧
    (0 < amount → source.is_open = true → destination.is_open = false →
      PostingManager.verify_transfer source destination amount =
        .error (.ClosedAccount "Destination account has been closed")) ∧
    (0 < amount → source.is_open = true → destination.is_open = true →
      source.is_debit_permitted amount = false →
      PostingManager.verify_transfer source destination amount =
        .error (.InsufficientFunds amount source.id)) ∧
    (∀ e db user description,
      PostingManager.verify_transfer source destination amount = .error e →
      PostingManager.create db source destination amount user description =
        .error e) := by
  refine ⟨?_, ?_, ?_, ?_, ?_⟩
  · intro h
    unfold PostingManager.verify_transfer
    rw [if_pos h]
  · intro h hsrc
    unfold PostingManager.verify_transfer
    rw [if_neg (by omega), if_pos (by simp [hsrc])]
  · intro h hsrc hdst
    unfold PostingManager.verify_transfer
    rw [if_neg (by omega), if_neg (by simp [hsrc]), if_pos (by simp [hdst])]
  · intro h hsrc hdst hdeb
    unfold PostingManager.verify_transfer
    rw [if_neg (by omega), if_neg (by simp [hsrc]), if_neg (by simp [hdst]),
        if_pos (by simp [hdeb])]
  · intro e db user description hv
    unfold PostingManager.create
    rw [hv]

/-- C3 witness: a zero amount raises InvalidAmount from both verify_transfer
and create. -/
theorem verify_check_order_witness :
    PostingManager.verify_transfer { id := 1 } { id := 2 } 0 =
      .error (.InvalidAmount "Debits must use a positive amount") ∧
    PostingManager.create { } { id := 1 } { id := 2 } 0 none none =
      .error (.InvalidAmount "Debits must use a positive amount") := by
  have h := verify_check_order { id := 1 } { id := 2 } 0
  exact ⟨h.1 (by decide), h.2.2.2.2 _ { } none none (h.1 (by decide))⟩

/-- C4: is_debit_permitted amount is true exactly when the credit limit is
null or balance + credit_limit is at least the amount; the check is a pure
read-only predicate of the account value. -/
theorem is_debit_permitted_iff (a : Account) (amount : Int) :
    a.is_debit_permitted amount = true ↔
      a.credit_limit = none ∨
        ∃ cl, a.credit_limit = some cl ∧ a.balance + cl ≥ amount := by
  unfold Account.is_debit_permitted
  cases h : a.credit_limit
  · simp
  · dsimp only
    simp only [decide_eq_true_eq, reduceCtorEq, Option.some.injEq, false_or]
    constructor
    · intro hle
      exact ⟨_, rfl, hle⟩
    · rintro ⟨cl, hcl, hge⟩
      subst hcl
      omega

/-- C4 witness: a null credit limit permits any debit. -/
theorem is_debit_permitted_iff_witness :
    Account.is_debit_permitted { id := 1, credit_limit := none } 7 = true :=
  (is_debit_permitted_iff { id := 1, credit_limit := none } 7).mpr
    (Or.inl rfl)

/-- C5: close() raises AccountNotEmpty and performs no write when the balance
is positive; with balance at most 0 it sets the status to Closed and persists
the account row. -/
theorem close_spec (a : Account) (db : DB) :
    (a.balance > 0 → a.close db = .error .AccountNotEmpty) ∧
    (a.balance ≤ 0 →
      ∃ a2 db2, a.close db = .ok (a2, db2) ∧ a2.status = CLOSED ∧
        db2.accounts a.id = some a2) := by
  constructor
  · intro h
    unfold Account.close
    rw [if_pos h]
  · intro h
    unfold Account.close
    rw [if_neg (by omega)]
    exact ⟨(Account.save { a with status := CLOSED } db).1,
           (Account.save { a with status := CLOSED } db).2, rfl,
           save_status { a with status := CLOSED } db,
           save_accounts_self { a with status := CLOSED } db⟩

/-- C5 witness: closing a zero-balance account succeeds and persists the
Closed status. -/
theorem close_spec_witness :
    ∃ a2 db2,
      Account.close { id := 3, balance := 0 } { } = .ok (a2, db2) ∧
      a2.status = CLOSED ∧ db2.accounts 3 = some a2 :=
  (close_spec { id := 3, balance := 0 } { }).2 (by decide)

/-- C6 (amended): Transfer.save snapshots the authorising user's
current username into the stored username column, but authorisor_username
reports the referenced user's current username whenever the user reference
still resolves, falling back to the stored snapshot only when it does not
(for example after the user row is gone and the reference was nulled). -/
theorem authorisor_username_semantics (t : Transfer) (db : DB) :
    (∀ uid u, t.user_id = some uid → db.getUser uid = some u →
      (Transfer.save t db).1.username = u.username ∧
      t.authorisor_username db = u.username) ∧
    (t.user_id.bind db.getUser = none →
      t.authorisor_username db = t.username) := by
  constructor
  · intro uid u huid hu
    have hb : t.user_id.bind db.getUser = some u := by
      rw [huid]
      simpa using hu
    constructor
    · unfold Transfer.save
      rw [hb]
    · unfold Transfer.authorisor_username
      rw [hb]
  · intro hb
    unfold Transfer.authorisor_username
    rw [hb]

/-- C6 witness: with the user row present, both the snapshot taken by save and
the reported name are the user's current username. -/
theorem authorisor_username_semantics_witness :
    (Transfer.save
      { id := 1, source_id := 1, destination_id := 2, amount := 5,
        user_id := some 1 }
      { users := fun x =>
          if x = 1 then some { id := 1, username := "alice" } else none }).1.username
      = "alice" ∧
    Transfer.authorisor_username
      { id := 1, source_id := 1, destination_id := 2, amount := 5,
        user_id := some 1 }
      { users := fun x =>
          if x = 1 then some { id := 1, username := "alice" } else none }
      = "alice" :=
  (authorisor_username_semantics
    { id := 1, source_id := 1, destination_id := 2, amount := 5,
      user_id := some 1 }
    { users := fun x =>
        if x = 1 then some { id := 1, username := "alice" } else none }).1
    1 { id := 1, username := "alice" } rfl rfl

/-- C6 counterexample: a transfer created with authorising user "alice"
stores the snapshot "alice", but after the user renames to "bob" the reported
authorisor_username is "bob", not the creation-time snapshot. -/
theorem authorisor_username_tracks_rename :
    ((PostingManager.create
        { users := fun x =>
            if x = 1 then some { id := 1, username := "alice" } else none }
        { id := 1, credit_limit := none } { id := 2 } 5
        (some { id := 1, username := "alice" }) none).toOption.map
      (fun p => p.1.username)) = some "alice" ∧
    ((PostingManager.create
        { users := fun x =>
            if x = 1 then some { id := 1, username := "alice" } else none }
        { id := 1, credit_limit := none } { id := 2 } 5
        (some { id := 1, username := "alice" }) none).toOption.map
      (fun p => p.1.authorisor_username
        { users := fun x =>
            if x = 1 then some { id := 1, username := "bob" } else none })) =
      some "bob" ∧
    "bob" ≠ "alice" :=
  ⟨rfl, rfl, by decide⟩

/-- C7: deleting a Transfer or a Transaction always raises the terminal
RuntimeError — a constructor distinct from every ordinary validation error —
and never produces a database state, so the record stays intact. -/
theorem delete_always_raises (t : Transfer) (tx : Transaction) (db : DB) :
    Transfer.delete t db =
      .error (.RuntimeError "Transfers cannot be deleted") ∧
    Transaction.delete tx db =
      .error (.RuntimeError "Transactions cannot be deleted") ∧
    (∀ db2, Transfer.delete t db ≠ .ok db2) ∧
    (∀ db2, Transaction.delete tx db ≠ .ok db2) ∧
    (∀ m m2, Exc.RuntimeError m ≠ .InvalidAmount m2) ∧
    (∀ m m2, Exc.RuntimeError m ≠ .ClosedAccount m2) ∧
    (∀ m amt aid, Exc.RuntimeError m ≠ .InsufficientFunds amt aid) ∧
    (∀ m, Exc.RuntimeError m ≠ .AccountNotEmpty) := by
  refine ⟨rfl, rfl, ?_, ?_, ?_, ?_, ?_, ?_⟩ <;>
    intros <;> simp [Transfer.delete, Transaction.delete]

/-- C7 witness: a concrete delete attempt raises the terminal error. -/
theorem delete_always_raises_witness :
    Transfer.delete { id := 1, source_id := 1, destination_id := 2, amount := 5 }
      { } = .error (.RuntimeError "Transfers cannot be deleted") :=
  (delete_always_raises
    { id := 1, source_id := 1, destination_id := 2, amount := 5 }
    { transfer_id := 1, account_id := 1, amount := 5 } { }).1

/-- C8: is_active is true exactly when today lies in the half-open window
from start_date (inclusive, trivially satisfied when null) to end_date
(exclusive, trivially satisfied when null); with both null it is always
true. -/
theorem is_active_iff (a : Account) (today : Int) :
    a.is_active today = true ↔
      ((∀ s, a.start_date = some s → s ≤ today) ∧
       (∀ e, a.end_date = some e → today < e)) := by
  unfold Account.is_active
  cases hs : a.start_date <;> cases he : a.end_date <;> simp

/-- C8 witness: an account with both bounds null is active. -/
theorem is_active_iff_witness :
    Account.is_active { id := 1 } 0 = true :=
  (is_active_iff { id := 1 } 0).mpr
    ⟨fun s hs => by simp at hs, fun e he => by simp at he⟩

/-- C9: verify_transfer does not reject source = destination: for an open
account whose debit of a positive amount is permitted, validating a transfer
from the account to itself raises no error. -/
theorem verify_same_account_ok (a : Account) (amount : Int)
    (hopen : a.is_open = true) (hamt : 0 < amount)
    (hdeb : a.is_debit_permitted amount = true) :
    PostingManager.verify_transfer a a amount = .ok () := by
  unfold PostingManager.verify_transfer
  rw [if_neg (by omega), if_neg (by simp [hopen]), if_neg (by simp [hopen]),
      if_neg (by simp [hdeb])]

/-- C9 witness: a concrete same-account validation passes. -/
theorem verify_same_account_ok_witness :
    PostingManager.verify_transfer { id := 1, credit_limit := none }
      { id := 1, credit_limit := none } 5 = .ok () :=
  verify_same_account_ok { id := 1, credit_limit := none } 5
    (by decide) (by decide) (by decide)

/-- C10: a freshly constructed account with default fields (credit limit 0,
balance 0) cannot be debited by any strictly positive amount. -/
theorem default_account_debit_denied (id : Nat) (amount : Int)
    (h : 0 < amount) :
    Account.is_debit_permitted { id := id } amount = false := by
  show decide (amount ≤ (0 : Int) + 0) = false
  simp only [decide_eq_false_iff_not]
  omega

/-- C10 witness: the default account cannot be debited 1. -/
theorem default_account_debit_denied_witness :
    Account.is_debit_permitted { id := 1 } 1 = false :=
  default_account_debit_denied 1 1 (by decide)

end OscarAccounts
